import Mathlib

/-!
Verification development for the xiview-api repository: a shallow embedding of
the read-query layer (src/app/routes/xiview.py) and the result writer
(src/parser/writer.py), with theorems settling the specified properties.

Database tables are embedded as Lean lists of typed rows; SQL SELECT/JOIN/WHERE
clauses become filters, binds and maps over those lists (bag semantics);
GROUP BY becomes deduplicated grouping keys plus per-key filtering; the
psycopg2 RealDictCursor row of the writer round-trip is an association list of
column name to value.  Numeric payload columns whose values never matter to any
property (masses, m/z) are carried as Int; byte strings are lists of byte
values (Nat); SQL cast to text is Lean toString.
-/

/- ### Generic helpers -/

/-- Decimal digits of a natural number, most significant first, as characters.
This is the fuel-free counterpart of core Nat.toDigitsCore at base 10. -/
def digitsRec (n : Nat) : List Char :=
  if _h : n < 10 then [Nat.digitChar n]
  else digitsRec (n / 10) ++ [Nat.digitChar (n % 10)]
termination_by n
decreasing_by exact Nat.div_lt_self (by omega) (by omega)

/-- Evaluate a most-significant-first decimal digit character list back to a
natural number. -/
def digitsVal (l : List Char) : Nat :=
  l.foldl (fun acc c => acc * 10 + (c.toNat - 48)) 0

/-- Maximum of a list of naturals, none on the empty list. -/
def listMax : List Nat → Option Nat
  | [] => none
  | x :: xs => some (xs.foldl max x)

/- ### Data model (section 3 of the spec; tables referenced by the queries in
src/app/routes/xiview.py and src/app/models/enzyme.py) -/

/-- One row of the upload table.  Columns are the ones the metadata query in
get_xiview_metadata selects (src/app/routes/xiview.py). -/
structure Upload where
  id : Nat
  project_id : String
  identification_file_name : String
  provider : String
  audit_collection : String
  analysis_sample_collection : String
  bib : String
  spectra_formats : String
  contains_crosslinks : Bool
  upload_warnings : String
deriving DecidableEq, Repr

/-- One row of the analysiscollectionspectrumidentification table (columns
selected by get_xiview_metadata). -/
structure AnalysisCollection where
  upload_id : Nat
  spectrum_identification_list_ref : String
  spectrum_identification_protocol_ref : String
  spectra_data_refs : String
  search_database_refs : String
deriving DecidableEq, Repr

/-- One row of the spectrumidentificationprotocol table (columns selected by
get_xiview_metadata). -/
structure SpectrumIdentificationProtocol where
  id : String
  sip_ref : String
  upload_id : Nat
  frag_tol : String
  frag_tol_unit : String
  additional_search_params : String
  analysis_software : String
  threshold : String
deriving DecidableEq, Repr

/-- One row of the spectradata table (get_xiview_metadata selects every column;
the payload stands for the format fields, which no property inspects). -/
structure SpectraData where
  upload_id : Nat
  payload : String
deriving DecidableEq, Repr

/-- One row of the enzyme table (src/app/models/enzyme.py). -/
structure Enzyme where
  id : String
  upload_id : Nat
  protocol_id : String
  c_term_gain : String
  min_distance : Int
  missed_cleavages : Int
  n_term_gain : String
  name : String
  semi_specific : Bool
  site_regexp : String
  accession : String
deriving DecidableEq, Repr

/-- One row of the searchmodification table (get_xiview_metadata selects every
column; no property inspects the fields beyond upload_id). -/
structure SearchModification where
  upload_id : Nat
  payload : String
deriving DecidableEq, Repr

/-- One row of the dbsequence table (columns selected by
get_xiview_proteins). -/
structure DBSequence where
  id : String
  upload_id : Nat
  name : String
  accession : String
  sequence : String
  description : String
deriving DecidableEq, Repr

/-- One row of the modifiedpeptide table (columns used by the matches and
peptides queries). -/
structure ModifiedPeptide where
  id : Nat
  upload_id : Nat
  base_sequence : String
  link_site1 : Int
  link_site2 : Int
  mod_accessions : String
  mod_positions : String
  mod_monoiso_mass_deltas : String
  crosslinker_modmass : Int
deriving DecidableEq, Repr

/-- One row of the match (spectrum identification) table (columns selected by
get_xiview_matches). -/
structure Match where
  id : Nat
  upload_id : Nat
  pep1_id : Nat
  pep2_id : Nat
  scores : String
  calc_mz : Int
  charge_state : Int
  exp_mz : Int
  spectrum_id : String
  spectra_data_id : String
  pass_threshold : Bool
  rank : Nat
  sip_id : String
deriving DecidableEq, Repr

/-- One row of the peptideevidence table (columns used by
get_xiview_peptides). -/
structure PeptideEvidence where
  upload_id : Nat
  peptide_id : Nat
  dbsequence_id : String
  pep_start : Int
  is_decoy : Bool
deriving DecidableEq, Repr

/-- One row of the spectrum table (columns selected by get_peaklist; intensity
and mz are raw byte strings, one Nat per byte). -/
structure Spectrum where
  id : String
  spectra_data_id : String
  upload_id : Nat
  intensity : List Nat
  mz : List Nat
deriving DecidableEq, Repr

/-- The relational database the query layer reads from: one list of rows per
table. -/
structure DB where
  uploads : List Upload
  analysiscollections : List AnalysisCollection
  sips : List SpectrumIdentificationProtocol
  spectradata : List SpectraData
  enzymes : List Enzyme
  searchmodifications : List SearchModification
  dbsequences : List DBSequence
  modifiedpeptides : List ModifiedPeptide
  matchRows : List Match
  peptideevidences : List PeptideEvidence
  spectra : List Spectrum
deriving DecidableEq, Repr

/- ### Upload Resolver -/

/-- The filter the resolver applies before grouping: uploads of the project,
further restricted to one identification file name when the optional file
argument is given. -/
def resolverKeeps (project : String) (file : Option String) (u : Upload) : Bool :=
  decide (u.project_id = project) &&
    match file with
    | none => true
    | some f => decide (u.identification_file_name = f)

/-- Modelled from the spec: get_most_recent_upload_ids lives in
app/routes/shared.py, which is not among the sources; section 4.2 of the spec
defines it as: query all uploads of the project, filter by file name when one
is given, group by identification_file_name, and keep the maximum id of each
group. -/
def get_most_recent_upload_ids (uploads : List Upload) (project : String)
    (file : Option String) : List Nat :=
  (((uploads.filter (resolverKeeps project file)).map
      (fun u => u.identification_file_name)).dedup).filterMap (fun n =>
    listMax (((uploads.filter (resolverKeeps project file)).filter
      (fun u => decide (u.identification_file_name = n))).map (fun u => u.id)))

/- ### Aggregation Query Layer: metadata (get_xiview_metadata) -/

/-- Output row of the upload sub-query of get_xiview_metadata: every upload
column, with upload_warnings renamed to warnings. -/
structure MzidFileRow where
  id : Nat
  project_id : String
  identification_file_name : String
  provider : String
  audit_collection : String
  analysis_sample_collection : String
  bib : String
  spectra_formats : String
  contains_crosslinks : Bool
  warnings : String
deriving DecidableEq, Repr

/-- The response object of get_xiview_metadata, keyed by category name. -/
structure XiviewMetadata where
  mzidentml_files : List MzidFileRow
  analysis_collections : List AnalysisCollection
  spectrum_identification_protocols : List SpectrumIdentificationProtocol
  spectra_data : List SpectraData
  enzymes : List Enzyme
  search_modifications : List SearchModification
deriving DecidableEq, Repr

/-- get_xiview_metadata: six independent per-id-set lookups, each a WHERE
upload_id = ANY(ids) filter, assembled into one response object. -/
def get_xiview_metadata (db : DB) (ids : List Nat) : XiviewMetadata where
  mzidentml_files :=
    (db.uploads.filter (fun u => decide (u.id ∈ ids))).map (fun u =>
      { id := u.id, project_id := u.project_id,
        identification_file_name := u.identification_file_name,
        provider := u.provider, audit_collection := u.audit_collection,
        analysis_sample_collection := u.analysis_sample_collection,
        bib := u.bib, spectra_formats := u.spectra_formats,
        contains_crosslinks := u.contains_crosslinks,
        warnings := u.upload_warnings })
  analysis_collections :=
    db.analysiscollections.filter (fun ac => decide (ac.upload_id ∈ ids))
  spectrum_identification_protocols :=
    db.sips.filter (fun sip => decide (sip.upload_id ∈ ids))
  spectra_data :=
    db.spectradata.filter (fun sd => decide (sd.upload_id ∈ ids))
  enzymes :=
    db.enzymes.filter (fun e => decide (e.upload_id ∈ ids))
  search_modifications :=
    db.searchmodifications.filter (fun sm => decide (sm.upload_id ∈ ids))

/- ### Aggregation Query Layer: matches (get_xiview_matches) -/

/-- The submodpep common table expression of get_xiview_matches:
modifiedpeptide rows of the resolved uploads whose link_site1 is positive. -/
def submodpep (db : DB) (ids : List Nat) : List ModifiedPeptide :=
  db.modifiedpeptides.filter
    (fun mp => decide (mp.upload_id ∈ ids) && decide (mp.link_site1 > -1))

/-- The FROM/JOIN/WHERE part of get_xiview_matches: match rows inner-joined to
submodpep on (upload_id, pep1_id) and on (upload_id, pep2_id), with the
pass_threshold and link_site1 WHERE conditions (bag semantics). -/
def xiviewMatchRows (db : DB) (ids : List Nat) : List Match :=
  (db.matchRows.flatMap (fun si =>
    (submodpep db ids).flatMap (fun mp1 =>
      (submodpep db ids).map (fun mp2 => (si, mp1, mp2))))).filter
    (fun r =>
      decide (r.1.upload_id = r.2.1.upload_id) &&
      decide (r.1.pep1_id = r.2.1.id) &&
      decide (r.1.upload_id = r.2.2.upload_id) &&
      decide (r.1.pep2_id = r.2.2.id) &&
      decide (r.1.upload_id ∈ ids) &&
      (r.1.pass_threshold == true) &&
      decide (r.2.1.link_site1 > -1) &&
      decide (r.2.2.link_site1 > -1)) |>.map (fun r => r.1)

/-- Output row of get_xiview_matches, fields renamed to the short codes of the
SELECT clause. -/
structure MatchRow where
  id : Nat
  pi1 : Nat
  pi2 : Nat
  sc : String
  si : String
  c_mz : Int
  pc_c : Int
  pc_mz : Int
  sp : String
  sd : String
  p : Bool
  r : Nat
  sip : String
deriving DecidableEq, Repr

/-- The SELECT projection of get_xiview_matches: rename each column to its
short code and cast upload_id to text. -/
def matchProject (m : Match) : MatchRow where
  id := m.id
  pi1 := m.pep1_id
  pi2 := m.pep2_id
  sc := m.scores
  si := toString m.upload_id
  c_mz := m.calc_mz
  pc_c := m.charge_state
  pc_mz := m.exp_mz
  sp := m.spectrum_id
  sd := m.spectra_data_id
  p := m.pass_threshold
  r := m.rank
  sip := m.sip_id

/-- get_xiview_matches: the joined and filtered match rows, projected to the
short-code output schema. -/
def get_xiview_matches (db : DB) (ids : List Nat) : List MatchRow :=
  (xiviewMatchRows db ids).map matchProject

/- ### Aggregation Query Layer: peptides (get_xiview_peptides) -/

/-- The submatch common table expression of get_xiview_peptides: the
(pep1_id, pep2_id, upload_id) projection of passing matches of the resolved
uploads. -/
def submatch (db : DB) (ids : List Nat) : List (Nat × Nat × Nat) :=
  (db.matchRows.filter
    (fun m => decide (m.upload_id ∈ ids) && (m.pass_threshold == true))).map
    (fun m => (m.pep1_id, m.pep2_id, m.upload_id))

/-- The pep_ids common table expression: the SQL UNION (set union, distinct) of
the (upload_id, pep1_id) and (upload_id, pep2_id) projections of submatch. -/
def pep_ids (db : DB) (ids : List Nat) : List (Nat × Nat) :=
  (((submatch db ids).map (fun s => (s.2.2, s.1))) ++
    ((submatch db ids).map (fun s => (s.2.2, s.2.1)))).dedup

/-- The subpp common table expression: peptideevidence rows of the resolved
uploads. -/
def subpp (db : DB) (ids : List Nat) : List PeptideEvidence :=
  db.peptideevidences.filter (fun pp => decide (pp.upload_id ∈ ids))

/-- The FROM/JOIN part of get_xiview_peptides before grouping: pep_ids
inner-joined to modifiedpeptide on (upload_id, id), then to subpp on
(upload_id, peptide_id). -/
def pepJoinRows (db : DB) (ids : List Nat) :
    List (ModifiedPeptide × PeptideEvidence) :=
  (pep_ids db ids).flatMap (fun pi =>
    (db.modifiedpeptides.filter
      (fun mp => decide (mp.upload_id = pi.1) && decide (pi.2 = mp.id))).flatMap
      (fun mp =>
        ((subpp db ids).filter
          (fun pp => decide (mp.upload_id = pp.upload_id) &&
            decide (mp.id = pp.peptide_id))).map (fun pp => (mp, pp))))

/-- The GROUP BY key of get_xiview_peptides:
(mp.id, mp.upload_id, mp.base_sequence). -/
def pepKey (mp : ModifiedPeptide) : Nat × Nat × String :=
  (mp.id, mp.upload_id, mp.base_sequence)

/-- The distinct GROUP BY keys of the joined rows. -/
def xiviewPepKeys (db : DB) (ids : List Nat) : List (Nat × Nat × String) :=
  ((pepJoinRows db ids).map (fun r => pepKey r.1)).dedup

/-- Output row of get_xiview_peptides: grouped peptide with the three
array_agg columns (prt, pos, dec) over its evidence rows. -/
structure PeptideRow where
  id : Nat
  u_id : String
  seq : String
  prt : List String
  pos : List Int
  dec : List Bool
  ls1 : Int
  ls2 : Int
  m_as : String
  m_ps : String
  m_ms : String
  cl_m : Int
deriving DecidableEq, Repr

/-- The group of joined rows of one GROUP BY key. -/
def pepGroup (db : DB) (ids : List Nat) (k : Nat × Nat × String) :
    List (ModifiedPeptide × PeptideEvidence) :=
  (pepJoinRows db ids).filter (fun r => decide (pepKey r.1 = k))

/-- One output row of get_xiview_peptides, built from the group of one GROUP
BY key: the three array_agg columns range over the rows of the group in
order, and the non-grouped modifiedpeptide columns come from the group
(functionally dependent on the key); no row is produced for an empty group
(inner join). -/
def pepRowOf (db : DB) (ids : List Nat) (k : Nat × Nat × String) :
    Option PeptideRow :=
  match (pepGroup db ids k).head? with
  | none => none
  | some r0 => some
    { id := r0.1.id
      u_id := toString r0.1.upload_id
      seq := r0.1.base_sequence
      prt := (pepGroup db ids k).map (fun r => r.2.dbsequence_id)
      pos := (pepGroup db ids k).map (fun r => r.2.pep_start)
      dec := (pepGroup db ids k).map (fun r => r.2.is_decoy)
      ls1 := r0.1.link_site1
      ls2 := r0.1.link_site2
      m_as := r0.1.mod_accessions
      m_ps := r0.1.mod_positions
      m_ms := r0.1.mod_monoiso_mass_deltas
      cl_m := r0.1.crosslinker_modmass }

/-- get_xiview_peptides: one output row per distinct GROUP BY key of the
joined rows. -/
def get_xiview_peptides (db : DB) (ids : List Nat) : List PeptideRow :=
  (xiviewPepKeys db ids).filterMap (pepRowOf db ids)

/- ### Aggregation Query Layer: proteins (get_xiview_proteins) -/

/-- Output row of get_xiview_proteins: dbsequence columns with upload_id cast
to text as search_id. -/
structure ProteinRow where
  id : String
  name : String
  accession : String
  sequence : String
  search_id : String
  description : String
deriving DecidableEq, Repr

/-- get_xiview_proteins: dbsequence rows of the resolved uploads. -/
def get_xiview_proteins (db : DB) (ids : List Nat) : List ProteinRow :=
  (db.dbsequences.filter (fun s => decide (s.upload_id ∈ ids))).map (fun s =>
    { id := s.id, name := s.name, accession := s.accession,
      sequence := s.sequence, search_id := toString s.upload_id,
      description := s.description })

/- ### Binary Peak Decoder (get_peaklist, src/app/routes/xiview.py) -/

/-- Split a byte string into consecutive 8-byte chunks, each the stored bit
pattern of one IEEE-754 double (native packing, no compression); a trailing
chunk shorter than 8 bytes is kept, but struct_unpack_d never produces one
because it checks the length first. -/
def chunks8 (l : List Nat) : List (List Nat) :=
  match l with
  | [] => []
  | a :: rest => (a :: rest.take 7) :: chunks8 (rest.drop 7)
termination_by l.length
decreasing_by simp; omega

/-- Python struct.unpack with format string count times d: requires the buffer
to hold exactly count * 8 bytes, else raises struct.error; on success yields
count doubles, modelled by their 8-byte patterns. -/
def struct_unpack_d (count : Nat) (data : List Nat) :
    Except String (List (List Nat)) :=
  if data.length = count * 8 then .ok (chunks8 data)
  else .error "struct.error: unpack requires a buffer of the declared size"

/-- The decoding step of get_peaklist: unpack with count = len(data) // 8, as
in struct.unpack of the handler. -/
def get_peaklist_unpack (data : List Nat) : Except String (List (List Nat)) :=
  struct_unpack_d (data.length / 8) data

/- ### The connection/error wrapper execute_query (src/app/routes/xiview.py) -/

/-- An abstract pooled database connection. -/
structure Conn where
  connId : Nat
deriving DecidableEq, Repr

/-- What a Python call observably ends in: a returned value, a raised
HTTPException, or an uncaught exception propagating out. -/
inductive PyOutcome (α : Type) where
  | ok (r : α)
  | httpException (code : Nat) (detail : String)
  | uncaught (msg : String)
deriving DecidableEq, Repr

/-- The outcome of execute_query together with the resource/log effects the
property talks about: whether an acquired connection got closed and whether
the error was logged. -/
structure ExecTrace (α : Type) where
  outcome : PyOutcome α
  connectionClosed : Bool
  errorLogged : Bool
deriving DecidableEq, Repr

/-- The finally clause of execute_query: conn.close() runs on the current
value of the conn variable.  When conn is still None (acquisition failed),
None.close() raises an AttributeError, which replaces whatever exception was
propagating; when a connection exists, it is closed and the pending outcome
stands. -/
def finallyClose (conn : Option Conn) (pending : PyOutcome α) : PyOutcome α :=
  match conn with
  | none => .uncaught "AttributeError: NoneType object has no attribute close"
  | some _ => pending

/-- execute_query from src/app/routes/xiview.py: conn starts as None; the try
block acquires a connection and runs the query; the except block logs any
exception and raises HTTPException(500, Database operation failed); the
finally block closes conn.  The acquisition step and the query step are the
two failure points the source can hit, passed in as Except values. -/
def execute_query (acquire : Except String Conn)
    (run : Conn → Except String α) : ExecTrace α :=
  match acquire with
  | .error _ =>
    { outcome := finallyClose none (.httpException 500 "Database operation failed")
      connectionClosed := false
      errorLogged := true }
  | .ok c =>
    match run c with
    | .ok r =>
      { outcome := finallyClose (some c) (.ok r)
        connectionClosed := true
        errorLogged := false }
    | .error _ =>
      { outcome := finallyClose (some c) (.httpException 500 "Database operation failed")
        connectionClosed := true
        errorLogged := true }

/-- Response body of get_peaklist: the two unpacked double arrays. -/
structure Peaklist where
  intensity : List (List Nat)
  mz : List (List Nat)
deriving DecidableEq, Repr

/-- get_peaklist: fetch one spectrum row by (id, spectra_data_id, upload_id)
and unpack its two byte strings.  fetchone on an empty result is Python None,
and the handler then evaluates None subscripted, an uncaught TypeError; any
struct.error from unpacking is equally uncaught. -/
def get_peaklist (db : DB) (id sd_ref : String) (upload_id : Nat) :
    Except String Peaklist :=
  match (db.spectra.filter (fun s => decide (s.id = id) &&
      decide (s.spectra_data_id = sd_ref) &&
      decide (s.upload_id = upload_id))).head? with
  | none => .error "TypeError: NoneType object is not subscriptable"
  | some row =>
    match get_peaklist_unpack row.intensity, get_peaklist_unpack row.mz with
    | .ok i, .ok m => .ok { intensity := i, mz := m }
    | .error e, _ => .error e
    | .ok _, .error e => .error e

/- ### Result Writer (src/parser/writer.py) -/

/-- A row of the upload table as the writer and the database driver see it: an
association list of column name to value (psycopg2 RealDictCursor rows are
dicts).  The keys of the row are the columns of the table. -/
abbrev UploadTableRow := List (String × String)

/-- Read one column of a row. -/
def rowGet (r : UploadTableRow) (k : String) : Option String :=
  (r.find? (fun p => p.1 == k)).map (fun p => p.2)

/-- SQL UPDATE of one column: replaces the value where the column exists,
touches nothing else. -/
def rowSet (r : UploadTableRow) (k v : String) : UploadTableRow :=
  r.map (fun p => if p.1 = k then (k, v) else p)

/-- SQLAlchemy update().values(...): every named column must be a column of
the table, else the statement fails to compile (Unconsumed column names);
otherwise each named column is set. -/
def updateValues (r : UploadTableRow) (vals : List (String × String)) :
    Except String UploadTableRow :=
  if vals.all (fun kv => (rowGet r kv.1).isSome) then
    .ok (vals.foldl (fun acc kv => rowSet acc kv.1 kv.2) r)
  else .error "CompileError: Unconsumed column names"

/-- Writer.write_mzid_info from src/parser/writer.py: update the Upload row
with values(spectra_formats=..., provider=..., audits=..., samples=...,
bib=...) -- the audits and samples keyword names are the column names the
update targets. -/
def write_mzid_info (r : UploadTableRow)
    (spectra_formats provider audits samples bib : String) :
    Except String UploadTableRow :=
  updateValues r
    [("spectra_formats", spectra_formats), ("provider", provider),
     ("audits", audits), ("samples", samples), ("bib", bib)]

/-- The upload sub-query of get_xiview_metadata at column level: the columns
it selects from an upload row, with upload_warnings renamed to warnings. -/
def metadata_mzid_select_row (r : UploadTableRow) : List (String × Option String) :=
  [("id", rowGet r "id"), ("project_id", rowGet r "project_id"),
   ("identification_file_name", rowGet r "identification_file_name"),
   ("provider", rowGet r "provider"),
   ("audit_collection", rowGet r "audit_collection"),
   ("analysis_sample_collection", rowGet r "analysis_sample_collection"),
   ("bib", rowGet r "bib"),
   ("spectra_formats", rowGet r "spectra_formats"),
   ("contains_crosslinks", rowGet r "contains_crosslinks"),
   ("warnings", rowGet r "upload_warnings")]

/-- Modelled from the spec: the upload table schema (create_db_schema and the
upload model) is not among the sources; its columns are those of the Upload
entity of the spec data model, under the exact names the metadata query in
src/app/routes/xiview.py selects. -/
def uploadColumns : List String :=
  ["id", "project_id", "identification_file_name", "provider",
   "audit_collection", "analysis_sample_collection", "bib", "spectra_formats",
   "contains_crosslinks", "upload_warnings"]

/-- An upload row carrying the schema columns, all values initially empty. -/
def uploadSchemaRow : UploadTableRow := uploadColumns.map (fun c => (c, ""))

/-- The schema row hypothetically extended with audits and samples columns,
to show the written values would still never be read back. -/
def extendedUploadRow : UploadTableRow :=
  uploadSchemaRow ++ [("audits", ""), ("samples", "")]

/-- ASCII lower-casing of one byte, the per-character behaviour of Python
str.lower() on the ASCII table names the writer handles. -/
def asciiLower (c : Nat) : Nat := if 65 ≤ c ∧ c ≤ 90 then c + 32 else c

/-- name.lower() on an ASCII byte string. -/
def strLower (s : List Nat) : List Nat := s.map asciiLower

/-- Table from src/parser/writer.py: forwards the table name lower-cased, so
the table a name addresses is identified by its lower-cased name. -/
def Table (name : List Nat) : List Nat := strLower name

/-- Writer.write_data resolves its target through Table; this is the table a
write_data call addresses. -/
def write_data_table (table : List Nat) : List Nat := Table table

/- ### Concrete example data for the witnesses -/

/-- Upload row with the given id and file name of project P (resolver
example). -/
def mkUpload (i : Nat) (f : String) : Upload :=
  { id := i, project_id := "P", identification_file_name := f, provider := "",
    audit_collection := "", analysis_sample_collection := "", bib := "",
    spectra_formats := "", contains_crosslinks := true, upload_warnings := "" }

/-- The resolver example of the spec: (id=1, file=A), (id=5, file=A),
(id=2, file=B), all of one project. -/
def exampleUploads : List Upload := [mkUpload 1 "A", mkUpload 5 "A", mkUpload 2 "B"]

/-- Crosslinked peptide 11 of upload 7. -/
def exPep1 : ModifiedPeptide :=
  { id := 11, upload_id := 7, base_sequence := "PEPK", link_site1 := 3,
    link_site2 := -1, mod_accessions := "", mod_positions := "",
    mod_monoiso_mass_deltas := "", crosslinker_modmass := 0 }

/-- Crosslinked peptide 12 of upload 7. -/
def exPep2 : ModifiedPeptide :=
  { id := 12, upload_id := 7, base_sequence := "KLMR", link_site1 := 1,
    link_site2 := -1, mod_accessions := "", mod_positions := "",
    mod_monoiso_mass_deltas := "", crosslinker_modmass := 0 }

/-- Passing match referencing peptide 11 as pep1 and 12 as pep2. -/
def exMatch1 : Match :=
  { id := 1, upload_id := 7, pep1_id := 11, pep2_id := 12, scores := "{}",
    calc_mz := 100, charge_state := 2, exp_mz := 101, spectrum_id := "s1",
    spectra_data_id := "sd1", pass_threshold := true, rank := 1,
    sip_id := "sip1" }

/-- Passing match referencing peptide 12 as pep1 and 11 as pep2. -/
def exMatch2 : Match :=
  { id := 2, upload_id := 7, pep1_id := 12, pep2_id := 11, scores := "{}",
    calc_mz := 200, charge_state := 3, exp_mz := 201, spectrum_id := "s2",
    spectra_data_id := "sd1", pass_threshold := true, rank := 1,
    sip_id := "sip1" }

/-- Evidence row of peptide 11. -/
def exEv1 : PeptideEvidence :=
  { upload_id := 7, peptide_id := 11, dbsequence_id := "prot1", pep_start := 5,
    is_decoy := false }

/-- Evidence row of peptide 12. -/
def exEv2 : PeptideEvidence :=
  { upload_id := 7, peptide_id := 12, dbsequence_id := "prot2", pep_start := 1,
    is_decoy := false }

/-- A small concrete database: one upload (id 7), two crosslinked peptides,
two passing matches referencing them on both sides, one evidence row each, no
spectra. -/
def exDB : DB :=
  { uploads := [mkUpload 7 "A"], analysiscollections := [], sips := [],
    spectradata := [], enzymes := [], searchmodifications := [],
    dbsequences := [], modifiedpeptides := [exPep1, exPep2],
    matchRows := [exMatch1, exMatch2], peptideevidences := [exEv1, exEv2],
    spectra := [] }

/- ### Shared helper lemmas about the queries -/

theorem toDigitsCore_eq_digitsRec (f : Nat) :
    ∀ (n : Nat) (acc : List Char), n < f →
      Nat.toDigitsCore 10 f n acc = digitsRec n ++ acc := by
  induction f with
  | zero => intro n acc h; omega
  | succ f ih =>
    intro n acc h
    by_cases h10 : n < 10
    · have hdiv : n / 10 = 0 := Nat.div_eq_of_lt h10
      have hmod : n % 10 = n := Nat.mod_eq_of_lt h10
      simp [Nat.toDigitsCore, hdiv, hmod, digitsRec, h10]
    · have hge : 10 ≤ n := by omega
      have hdiv : n / 10 ≠ 0 := by
        intro hc
        have h1 : 1 ≤ n / 10 := (Nat.le_div_iff_mul_le (by omega)).mpr (by omega)
        omega
      have hlt : n / 10 < f := by
        have h1 : n / 10 < n := Nat.div_lt_self (by omega) (by omega)
        omega
      rw [show Nat.toDigitsCore 10 (f + 1) n acc =
            Nat.toDigitsCore 10 f (n / 10) (Nat.digitChar (n % 10) :: acc) by
          simp [Nat.toDigitsCore, hdiv]]
      rw [ih (n / 10) (Nat.digitChar (n % 10) :: acc) hlt]
      rw [show digitsRec n = digitsRec (n / 10) ++ [Nat.digitChar (n % 10)] by
          rw [digitsRec]; simp [h10]]
      simp

theorem digitsVal_append_last (l : List Char) (c : Char) :
    digitsVal (l ++ [c]) = digitsVal l * 10 + (c.toNat - 48) := by
  simp [digitsVal, List.foldl_append]

theorem digitsVal_digitsRec (n : Nat) : digitsVal (digitsRec n) = n := by
  induction n using Nat.strong_induction_on with
  | _ n ih =>
    by_cases h10 : n < 10
    · rw [digitsRec]
      simp only [h10, dite_true]
      interval_cases n <;> rfl
    · rw [digitsRec]
      simp only [h10, dite_false]
      rw [digitsVal_append_last]
      have hlt : n / 10 < n := Nat.div_lt_self (by omega) (by omega)
      rw [ih (n / 10) hlt]
      have hmod : n % 10 < 10 := Nat.mod_lt _ (by omega)
      have hchar : (Nat.digitChar (n % 10)).toNat - 48 = n % 10 := by
        generalize hr : n % 10 = r at hmod ⊢
        interval_cases r <;> rfl
      rw [hchar]
      omega

theorem digitsRec_inj {m n : Nat} (h : digitsRec m = digitsRec n) : m = n := by
  have := digitsVal_digitsRec m
  rw [h, digitsVal_digitsRec] at this
  omega

/-- Injectivity of the decimal string representation of naturals (the model of
SQL cast from integer to text). -/
theorem natToString_inj {m n : Nat} (h : toString m = toString n) : m = n := by
  have hrepr : Nat.repr m = Nat.repr n := h
  unfold Nat.repr at hrepr
  rw [List.asString_inj] at hrepr
  unfold Nat.toDigits at hrepr
  rw [toDigitsCore_eq_digitsRec (m + 1) m [] (by omega),
      toDigitsCore_eq_digitsRec (n + 1) n [] (by omega)] at hrepr
  simp at hrepr
  exact digitsRec_inj hrepr

theorem foldl_max_mem (xs : List Nat) (x : Nat) :
    xs.foldl max x = x ∨ xs.foldl max x ∈ xs := by
  induction xs generalizing x with
  | nil => left; rfl
  | cons y ys ih =>
    rcases ih (max x y) with h | h
    · rcases max_choice x y with hm | hm
      · left; rw [List.foldl_cons, h, hm]
      · right; rw [List.foldl_cons, h, hm]; exact List.mem_cons_self _ _
    · right; rw [List.foldl_cons]; exact List.mem_cons_of_mem _ h

theorem foldl_max_le (xs : List Nat) (x : Nat) :
    x ≤ xs.foldl max x ∧ ∀ y ∈ xs, y ≤ xs.foldl max x := by
  induction xs generalizing x with
  | nil => exact ⟨Nat.le_refl x, by simp⟩
  | cons z zs ih =>
    refine ⟨?_, ?_⟩
    · exact Nat.le_trans (le_max_left x z) (ih (max x z)).1
    · intro y hy
      rcases List.mem_cons.mp hy with h | h
      · subst h
        exact Nat.le_trans (le_max_right x y) (ih (max x y)).1
      · exact (ih (max x z)).2 y h

theorem listMax_eq_some_iff {l : List Nat} {m : Nat} :
    listMax l = some m ↔ m ∈ l ∧ ∀ x ∈ l, x ≤ m := by
  constructor
  · intro h
    match l, h with
    | x :: xs, h =>
      simp only [listMax, Option.some.injEq] at h
      subst h
      refine ⟨?_, ?_⟩
      · rcases foldl_max_mem xs x with h | h
        · rw [h]; exact List.mem_cons_self _ _
        · exact List.mem_cons_of_mem _ h
      · intro y hy
        rcases List.mem_cons.mp hy with h | h
        · subst h; exact (foldl_max_le xs y).1
        · exact (foldl_max_le xs x).2 y h
  · rintro ⟨hm, hub⟩
    match l, hm with
    | x :: xs, hm =>
      simp only [listMax, Option.some.injEq]
      have h1 : xs.foldl max x ≤ m := by
        rcases foldl_max_mem xs x with h | h
        · rw [h]; exact hub x (List.mem_cons_self _ _)
        · exact hub _ (List.mem_cons_of_mem _ h)
      have h2 : m ≤ xs.foldl max x := by
        rcases List.mem_cons.mp hm with h | h
        · subst h; exact (foldl_max_le xs m).1
        · exact (foldl_max_le xs x).2 m h
      omega

theorem chunks8_length (n : Nat) :
    ∀ l : List Nat, l.length = 8 * n → (chunks8 l).length = n := by
  induction n with
  | zero =>
    intro l hl
    have : l = [] := List.eq_nil_of_length_eq_zero (by omega)
    subst this
    simp [chunks8]
  | succ n ih =>
    intro l hl
    match l with
    | [] => simp at hl
    | a :: rest =>
      rw [chunks8]
      simp only [List.length_cons]
      rw [ih (rest.drop 7) (by simp at hl ⊢; omega)]

theorem mem_xiviewMatchRows {db : DB} {ids : List Nat} {m : Match} :
    m ∈ xiviewMatchRows db ids ↔
      m ∈ db.matchRows ∧ m.upload_id ∈ ids ∧ m.pass_threshold = true ∧
      (∃ p ∈ db.modifiedpeptides,
        p.upload_id = m.upload_id ∧ p.id = m.pep1_id ∧ p.link_site1 > -1) ∧
      (∃ p ∈ db.modifiedpeptides,
        p.upload_id = m.upload_id ∧ p.id = m.pep2_id ∧ p.link_site1 > -1) := by
  unfold xiviewMatchRows submodpep
  simp only [List.mem_map, List.mem_filter, List.mem_flatMap,
    Bool.and_eq_true, decide_eq_true_eq, beq_iff_eq]
  constructor
  · rintro ⟨r, ⟨hrmem, hcond⟩, rfl⟩
    obtain ⟨si, hsi, mp1, ⟨hmp1m, hmp1i, hmp1l⟩, mp2,
      ⟨hmp2m, hmp2i, hmp2l⟩, rfl⟩ := hrmem
    obtain ⟨⟨⟨⟨⟨⟨⟨h1, h2⟩, h3⟩, h4⟩, h5⟩, h6⟩, h7⟩, h8⟩ := hcond
    exact ⟨hsi, h5, h6, ⟨mp1, hmp1m, h1.symm, h2.symm, h7⟩,
      ⟨mp2, hmp2m, h3.symm, h4.symm, h8⟩⟩
  · rintro ⟨hm, hids, hpass, ⟨p1, hp1m, hp1u, hp1i, hp1l⟩,
      ⟨p2, hp2m, hp2u, hp2i, hp2l⟩⟩
    refine ⟨(m, p1, p2),
      ⟨⟨m, hm, p1, ⟨hp1m, by rw [hp1u]; exact hids, hp1l⟩,
        p2, ⟨hp2m, by rw [hp2u]; exact hids, hp2l⟩, rfl⟩, ?_⟩, rfl⟩
    exact ⟨⟨⟨⟨⟨⟨⟨hp1u.symm, hp1i.symm⟩, hp2u.symm⟩, hp2i.symm⟩, hids⟩,
      hpass⟩, hp1l⟩, hp2l⟩

theorem countP_filterMap_eq {α β : Type} (f : α → Option β) (p : β → Bool)
    (q : α → Bool) :
    ∀ l : List α,
      (∀ a ∈ l, ∀ b, f a = some b → p b = q a) →
      (∀ a ∈ l, q a = true → (f a).isSome) →
      (l.filterMap f).countP p = l.countP q := by
  intro l
  induction l with
  | nil => intro _ _; rfl
  | cons a l ih =>
    intro h1 h2
    have ih' := ih (fun x hx => h1 x (List.mem_cons_of_mem a hx))
      (fun x hx => h2 x (List.mem_cons_of_mem a hx))
    rcases hfa : f a with _ | b
    · have hqa : q a = false := by
        rcases hq : q a with _ | _
        · rfl
        · have := h2 a (List.mem_cons_self a l) hq
          rw [hfa] at this
          simp at this
      rw [List.filterMap_cons_none hfa, List.countP_cons, hqa, ih']
      simp
    · have hpb : p b = q a := h1 a (List.mem_cons_self a l) b hfa
      rw [List.filterMap_cons_some hfa, List.countP_cons, List.countP_cons,
        ih', hpb]

theorem countP_eq_one_of_nodup_mem {α : Type} [DecidableEq α] {l : List α}
    (hnd : l.Nodup) {a : α} (ha : a ∈ l) :
    l.countP (fun k => decide (k = a)) = 1 := by
  have h1 : l.count a = 1 := List.count_eq_one_of_mem hnd ha
  rw [List.count_eq_countP] at h1
  rw [← h1]
  apply List.countP_congr
  intro x _
  rw [Bool.eq_iff_iff]
  simp

theorem asciiLower_idem (c : Nat) : asciiLower (asciiLower c) = asciiLower c := by
  by_cases h : 65 ≤ c ∧ c ≤ 90
  · have h0 : asciiLower c = c + 32 := by unfold asciiLower; rw [if_pos h]
    rw [h0]
    unfold asciiLower
    rw [if_neg (by omega)]
  · have h0 : asciiLower c = c := by unfold asciiLower; rw [if_neg h]
    rw [h0]
    exact h0

theorem mem_pep_ids {db : DB} {ids : List Nat} {pr : Nat × Nat} :
    pr ∈ pep_ids db ids ↔
      ∃ m ∈ db.matchRows, m.upload_id ∈ ids ∧ m.pass_threshold = true ∧
        pr.1 = m.upload_id ∧ (pr.2 = m.pep1_id ∨ pr.2 = m.pep2_id) := by
  unfold pep_ids submatch
  rw [List.mem_dedup, List.mem_append]
  simp only [List.mem_map, List.mem_filter, Bool.and_eq_true,
    decide_eq_true_eq, beq_iff_eq]
  constructor
  · rintro (⟨s, ⟨m, ⟨hm, hi, hp⟩, rfl⟩, rfl⟩ | ⟨s, ⟨m, ⟨hm, hi, hp⟩, rfl⟩, rfl⟩)
    · exact ⟨m, hm, hi, hp, rfl, Or.inl rfl⟩
    · exact ⟨m, hm, hi, hp, rfl, Or.inr rfl⟩
  · rintro ⟨m, hm, hi, hp, h1, (h2 | h2)⟩
    · left
      refine ⟨(m.pep1_id, m.pep2_id, m.upload_id), ⟨m, ⟨hm, hi, hp⟩, rfl⟩, ?_⟩
      obtain ⟨a, b⟩ := pr
      simp at h1 h2 ⊢
      exact ⟨h1.symm, h2.symm⟩
    · right
      refine ⟨(m.pep1_id, m.pep2_id, m.upload_id), ⟨m, ⟨hm, hi, hp⟩, rfl⟩, ?_⟩
      obtain ⟨a, b⟩ := pr
      simp at h1 h2 ⊢
      exact ⟨h1.symm, h2.symm⟩

theorem mem_pepJoinRows {db : DB} {ids : List Nat}
    {r : ModifiedPeptide × PeptideEvidence} :
    r ∈ pepJoinRows db ids ↔
      (r.1.upload_id, r.1.id) ∈ pep_ids db ids ∧ r.1 ∈ db.modifiedpeptides ∧
      r.2 ∈ db.peptideevidences ∧ r.2.upload_id ∈ ids ∧
      r.1.upload_id = r.2.upload_id ∧ r.1.id = r.2.peptide_id := by
  unfold pepJoinRows subpp
  simp only [List.mem_map, List.mem_filter, List.mem_flatMap,
    Bool.and_eq_true, decide_eq_true_eq]
  constructor
  · rintro ⟨pi, hpi, mp, ⟨hmpm, hmpu, hmpi⟩, pp, ⟨⟨hppm, hppi⟩, hppu, hppp⟩, rfl⟩
    have : pi = (mp.upload_id, mp.id) := by
      obtain ⟨a, b⟩ := pi
      simp at hmpu hmpi ⊢
      exact ⟨hmpu.symm, hmpi⟩
    subst this
    exact ⟨hpi, hmpm, hppm, hppi, hppu, hppp⟩
  · rintro ⟨hpi, hmpm, hppm, hppi, hppu, hppp⟩
    exact ⟨(r.1.upload_id, r.1.id), hpi, r.1, ⟨hmpm, rfl, rfl⟩, r.2,
      ⟨⟨hppm, hppi⟩, hppu, hppp⟩, rfl⟩

/- ### Claim theorems -/

/-- C1: the Upload Resolver groups a project's uploads by
identification_file_name and returns, per group, exactly the upload with the
maximum id; on the spec example uploads (id=1, file=A), (id=5, file=A),
(id=2, file=B), resolving with no file filter yields {5, 2} and resolving with
file A yields {5}. -/
theorem upload_resolver_latest_per_file :
    (∀ (uploads : List Upload) (project : String) (file : Option String)
        (i : Nat),
      i ∈ get_most_recent_upload_ids uploads project file ↔
        ∃ u ∈ uploads.filter (resolverKeeps project file), u.id = i ∧
          ∀ v ∈ uploads.filter (resolverKeeps project file),
            v.identification_file_name = u.identification_file_name →
              v.id ≤ i) ∧
    get_most_recent_upload_ids exampleUploads "P" none = [5, 2] ∧
    get_most_recent_upload_ids exampleUploads "P" (some "A") = [5] := by
  refine ⟨?_, by decide, by decide⟩
  intro uploads project file i
  unfold get_most_recent_upload_ids
  simp only [List.mem_filterMap, List.mem_dedup, List.mem_map]
  constructor
  · rintro ⟨n, _hn, hmax⟩
    rw [listMax_eq_some_iff] at hmax
    obtain ⟨hmem, hub⟩ := hmax
    obtain ⟨u, hu, hui⟩ := List.mem_map.mp hmem
    obtain ⟨huf, hun⟩ := List.mem_filter.mp hu
    have hufn : u.identification_file_name = n := by simpa using hun
    refine ⟨u, huf, hui, ?_⟩
    intro v hv hvn
    apply hub
    exact List.mem_map.mpr ⟨v, List.mem_filter.mpr ⟨hv, by simp [hvn, hufn]⟩,
      rfl⟩
  · rintro ⟨u, hu, hid, hub⟩
    refine ⟨u.identification_file_name, ⟨u, hu, rfl⟩, ?_⟩
    rw [listMax_eq_some_iff]
    constructor
    · exact List.mem_map.mpr ⟨u, List.mem_filter.mpr ⟨hu, by simp⟩, hid⟩
    · intro x hx
      obtain ⟨v, hv, rfl⟩ := List.mem_map.mp hx
      obtain ⟨hvf, hvn⟩ := List.mem_filter.mp hv
      exact hub v hvf (by simpa using hvn)

/-- C2: the Matches query returns exactly the Match rows whose upload_id is in
the resolved id set, whose pass_threshold is true and whose two referenced
peptides both carry link_site1 > -1; the response is the projection of
precisely these rows. -/
theorem matches_query_filter_exact (db : DB) (ids : List Nat) (m : Match) :
    (m ∈ xiviewMatchRows db ids ↔
      m ∈ db.matchRows ∧ m.upload_id ∈ ids ∧ m.pass_threshold = true ∧
      (∃ p ∈ db.modifiedpeptides,
        p.upload_id = m.upload_id ∧ p.id = m.pep1_id ∧ p.link_site1 > -1) ∧
      (∃ p ∈ db.modifiedpeptides,
        p.upload_id = m.upload_id ∧ p.id = m.pep2_id ∧ p.link_site1 > -1)) ∧
    get_xiview_matches db ids = (xiviewMatchRows db ids).map matchProject :=
  ⟨mem_xiviewMatchRows, rfl⟩

/-- C8: every object the Matches query returns carries the source Match row's
values under the documented short codes: pep1_id as pi1, pep2_id as pi2,
scores as sc, upload_id as text in si, calc_mz as c_mz, charge_state as pc_c,
exp_mz as pc_mz, spectrum_id as sp, spectra_data_id as sd, pass_threshold as
p, rank as r and sip_id as sip. -/
theorem matches_short_code_renaming (db : DB) (ids : List Nat) (o : MatchRow)
    (h : o ∈ get_xiview_matches db ids) :
    ∃ m ∈ db.matchRows, o.id = m.id ∧ o.pi1 = m.pep1_id ∧ o.pi2 = m.pep2_id ∧
      o.sc = m.scores ∧ o.si = toString m.upload_id ∧ o.c_mz = m.calc_mz ∧
      o.pc_c = m.charge_state ∧ o.pc_mz = m.exp_mz ∧ o.sp = m.spectrum_id ∧
      o.sd = m.spectra_data_id ∧ o.p = m.pass_threshold ∧ o.r = m.rank ∧
      o.sip = m.sip_id := by
  obtain ⟨mm, hmm, rfl⟩ := List.mem_map.mp h
  exact ⟨mm, (mem_xiviewMatchRows.mp hmm).1, rfl, rfl, rfl, rfl, rfl, rfl,
    rfl, rfl, rfl, rfl, rfl, rfl, rfl⟩

theorem matches_short_code_renaming_witness :
    matchProject exMatch1 ∈ get_xiview_matches exDB [7] ∧
    ∃ m ∈ exDB.matchRows, (matchProject exMatch1).id = m.id ∧
      (matchProject exMatch1).pi1 = m.pep1_id ∧
      (matchProject exMatch1).pi2 = m.pep2_id ∧
      (matchProject exMatch1).sc = m.scores ∧
      (matchProject exMatch1).si = toString m.upload_id ∧
      (matchProject exMatch1).c_mz = m.calc_mz ∧
      (matchProject exMatch1).pc_c = m.charge_state ∧
      (matchProject exMatch1).pc_mz = m.exp_mz ∧
      (matchProject exMatch1).sp = m.spectrum_id ∧
      (matchProject exMatch1).sd = m.spectra_data_id ∧
      (matchProject exMatch1).p = m.pass_threshold ∧
      (matchProject exMatch1).r = m.rank ∧
      (matchProject exMatch1).sip = m.sip_id :=
  ⟨by decide,
    matches_short_code_renaming exDB [7] (matchProject exMatch1) (by decide)⟩

/-- C4: the binary peak decoder turns a byte string of length 8*n into
exactly n double values, and rejects every input whose length is not a
multiple of 8 with a malformed-data error. -/
theorem peak_decoder_contract :
    (∀ (data : List Nat) (n : Nat), data.length = 8 * n →
      ∃ ds, get_peaklist_unpack data = Except.ok ds ∧ ds.length = n) ∧
    (∀ data : List Nat, data.length % 8 ≠ 0 →
      ∃ e, get_peaklist_unpack data = Except.error e) := by
  constructor
  · intro data n h
    refine ⟨chunks8 data, ?_, chunks8_length n data h⟩
    unfold get_peaklist_unpack struct_unpack_d
    rw [if_pos (by omega)]
  · intro data h
    refine ⟨"struct.error: unpack requires a buffer of the declared size", ?_⟩
    unfold get_peaklist_unpack struct_unpack_d
    rw [if_neg (by omega)]

theorem peak_decoder_contract_witness :
    ((List.replicate 24 0).length = 8 * 3 ∧
      ∃ ds, get_peaklist_unpack (List.replicate 24 0) = Except.ok ds ∧
        ds.length = 3) ∧
    ((List.replicate 23 0).length % 8 ≠ 0 ∧
      ∃ e, get_peaklist_unpack (List.replicate 23 0) = Except.error e) :=
  ⟨⟨by decide, peak_decoder_contract.1 (List.replicate 24 0) 3 (by decide)⟩,
   ⟨by decide, peak_decoder_contract.2 (List.replicate 23 0) (by decide)⟩⟩

/-- C5: on an empty resolved upload-id set every aggregation query (metadata,
matches, peptides, proteins) returns an empty collection; as total functions
of the database they return, never raise. -/
theorem empty_idset_queries_empty (db : DB) :
    get_xiview_metadata db [] =
      { mzidentml_files := [], analysis_collections := [],
        spectrum_identification_protocols := [], spectra_data := [],
        enzymes := [], search_modifications := [] } ∧
    get_xiview_matches db [] = [] ∧
    get_xiview_peptides db [] = [] ∧
    get_xiview_proteins db [] = [] := by
  have hsm : submatch db [] = [] := by simp [submatch]
  have hpi : pep_ids db [] = [] := by simp [pep_ids, hsm]
  have hjr : pepJoinRows db [] = [] := by simp [pepJoinRows, hpi]
  have hk : xiviewPepKeys db [] = [] := by simp [xiviewPepKeys, hjr]
  refine ⟨?_, ?_, ?_, ?_⟩
  · unfold get_xiview_metadata
    simp [XiviewMetadata.mk.injEq, List.filter_eq_nil_iff]
  · unfold get_xiview_matches xiviewMatchRows
    simp
  · unfold get_xiview_peptides
    rw [hk]
    rfl
  · unfold get_xiview_proteins
    simp

/-- C6: when connection acquisition fails, execute_query does not surface the
designed generic 500 failure: the finally clause evaluates close() on the
still-None conn variable and the resulting AttributeError escapes uncaught
(and no connection release happens); by contrast, a failure during query
execution is caught and surfaced as the generic 500 with the connection
closed. -/
theorem execute_query_conn_close_bug (msg err : String)
    (run : Conn → Except String Nat) (c : Conn) :
    (execute_query (Except.error msg) run).outcome =
      PyOutcome.uncaught
        "AttributeError: NoneType object has no attribute close" ∧
    (execute_query (Except.error msg) run).connectionClosed = false ∧
    (execute_query (Except.ok c)
        (fun _ => (Except.error err : Except String Nat))).outcome =
      PyOutcome.httpException 500 "Database operation failed" ∧
    (execute_query (Except.ok c)
        (fun _ => (Except.error err : Except String Nat))).connectionClosed
      = true ∧
    (∀ v : Nat, (execute_query (Except.ok c) (fun _ => Except.ok v)).outcome =
      PyOutcome.ok v ∧
      (execute_query (Except.ok c) (fun _ => Except.ok v)).connectionClosed
        = true) :=
  ⟨rfl, rfl, rfl, rfl, fun _ => ⟨rfl, rfl⟩⟩

/-- C7: the Writer's write_mzid_info cannot round-trip through the metadata
query: it updates columns named audits and samples, which the upload table
does not have, so the update fails outright; and even on a table extended
with such columns the metadata query still reads audit_collection and
analysis_sample_collection, which keep their old values, so the written
audits and samples values are never read back. -/
theorem write_mzid_info_column_mismatch :
    write_mzid_info uploadSchemaRow "fmt" "prov" "aud" "smp" "bib" =
      Except.error "CompileError: Unconsumed column names" ∧
    ("audits" ∉ uploadColumns ∧ "samples" ∉ uploadColumns) ∧
    (∃ r2, write_mzid_info extendedUploadRow "fmt" "prov" "aud" "smp" "bib" =
        Except.ok r2 ∧
      rowGet r2 "spectra_formats" = some "fmt" ∧
      rowGet r2 "provider" = some "prov" ∧
      rowGet r2 "bib" = some "bib" ∧
      rowGet r2 "audit_collection" = some "" ∧
      rowGet r2 "analysis_sample_collection" = some "") := by
  refine ⟨rfl, by decide, ?_⟩
  exact ⟨_, rfl, rfl, rfl, rfl, rfl, rfl⟩

/-- C9: the Writer resolves every table name through Table, which lower-cases
it, so write_data addressed with a name and with its lower-cased form target
the same table. -/
theorem write_data_table_case_normalized (name : List Nat) :
    write_data_table name = strLower name ∧
    write_data_table (strLower name) = write_data_table name := by
  refine ⟨rfl, ?_⟩
  unfold write_data_table Table strLower
  rw [List.map_map]
  exact List.map_congr_left (fun a _ => asciiLower_idem a)

theorem write_data_table_case_normalized_witness :
    write_data_table [88, 105, 95] = strLower [88, 105, 95] ∧
    write_data_table (strLower [88, 105, 95]) = write_data_table [88, 105, 95]
    := write_data_table_case_normalized [88, 105, 95]

/-- C10: a get_peaklist request matching no spectrum row does not produce an
empty or not-found response: fetchone yields None and the handler then
subscripts it, so the call ends in an uncaught TypeError. -/
theorem get_peaklist_missing_row_uncaught (db : DB) (id sd : String) (u : Nat)
    (h : ∀ s ∈ db.spectra,
      ¬(s.id = id ∧ s.spectra_data_id = sd ∧ s.upload_id = u)) :
    get_peaklist db id sd u =
      Except.error "TypeError: NoneType object is not subscriptable" := by
  unfold get_peaklist
  have hf : db.spectra.filter (fun s => decide (s.id = id) &&
      decide (s.spectra_data_id = sd) && decide (s.upload_id = u)) = [] := by
    rw [List.filter_eq_nil_iff]
    intro s hs hc
    simp only [Bool.and_eq_true, decide_eq_true_eq] at hc
    exact h s hs ⟨hc.1.1, hc.1.2, hc.2⟩
  rw [hf]
  rfl

theorem get_peaklist_missing_row_uncaught_witness :
    (∀ s ∈ exDB.spectra,
      ¬(s.id = "sp1" ∧ s.spectra_data_id = "sd1" ∧ s.upload_id = 7)) ∧
    get_peaklist exDB "sp1" "sd1" 7 =
      Except.error "TypeError: NoneType object is not subscriptable" :=
  ⟨by decide, get_peaklist_missing_row_uncaught exDB "sp1" "sd1" 7 (by decide)⟩

theorem pep_evidence_join {db : DB} {ids : List Nat} {pep : ModifiedPeptide}
    {e : PeptideEvidence}
    (hpep : pep ∈ db.modifiedpeptides)
    (hm1 : ∃ m ∈ db.matchRows, m.upload_id ∈ ids ∧ m.pass_threshold = true ∧
      m.upload_id = pep.upload_id ∧ m.pep1_id = pep.id)
    (he : e ∈ db.peptideevidences) (heu : e.upload_id = pep.upload_id)
    (hei : e.peptide_id = pep.id) :
    (pep, e) ∈ pepJoinRows db ids := by
  obtain ⟨m1, hm1m, hm1i, hm1p, hm1u, hm1id⟩ := hm1
  rw [mem_pepJoinRows]
  refine ⟨?_, hpep, he, ?_, heu.symm, hei.symm⟩
  · rw [mem_pep_ids]
    exact ⟨m1, hm1m, hm1i, hm1p, hm1u.symm, Or.inl hm1id.symm⟩
  · rw [heu, ← hm1u]
    exact hm1i

theorem mem_pepGroup {db : DB} {ids : List Nat} {k : Nat × Nat × String}
    {r : ModifiedPeptide × PeptideEvidence} (hr : r ∈ pepGroup db ids k) :
    r ∈ pepJoinRows db ids ∧ pepKey r.1 = k := by
  have h := List.mem_filter.mp hr
  exact ⟨h.1, by simpa using h.2⟩

theorem pepRowOf_fields {db : DB} {ids : List Nat} {k : Nat × Nat × String}
    {o : PeptideRow} (h : pepRowOf db ids k = some o) :
    o.id = k.1 ∧ o.u_id = toString k.2.1 ∧ o.seq = k.2.2 ∧
    o.prt = (pepGroup db ids k).map (fun r => r.2.dbsequence_id) ∧
    o.pos = (pepGroup db ids k).map (fun r => r.2.pep_start) ∧
    o.dec = (pepGroup db ids k).map (fun r => r.2.is_decoy) := by
  unfold pepRowOf at h
  cases hh : (pepGroup db ids k).head? with
  | none => rw [hh] at h; simp at h
  | some r0 =>
    rw [hh] at h
    simp only [Option.some.injEq] at h
    subst h
    have hr0 := mem_pepGroup (List.mem_of_mem_head? (Option.mem_def.mpr hh))
    have hk := hr0.2
    refine ⟨?_, ?_, ?_, rfl, rfl, rfl⟩
    · show r0.1.id = k.1
      rw [← hk]; rfl
    · show toString r0.1.upload_id = toString k.2.1
      rw [show r0.1.upload_id = k.2.1 by rw [← hk]; rfl]
    · show r0.1.base_sequence = k.2.2
      rw [← hk]; rfl

/-- C3: a peptide referenced as pep1 in one passing match and as pep2 in
another (same upload_id and peptide_id) yields exactly one row of the
Peptides query output, and that row's three aggregated columns (protein id,
sequence position, decoy flag) are the images of one ordered list of the
peptide's evidence rows, hence of equal length and index-aligned. -/
theorem peptides_query_dedup_parallel (db : DB) (ids : List Nat)
    (pep : ModifiedPeptide)
    (hpep : pep ∈ db.modifiedpeptides)
    (hm1 : ∃ m ∈ db.matchRows, m.upload_id ∈ ids ∧ m.pass_threshold = true ∧
      m.upload_id = pep.upload_id ∧ m.pep1_id = pep.id)
    (_hm2 : ∃ m ∈ db.matchRows, m.upload_id ∈ ids ∧ m.pass_threshold = true ∧
      m.upload_id = pep.upload_id ∧ m.pep2_id = pep.id)
    (hev : ∃ e ∈ db.peptideevidences, e.upload_id = pep.upload_id ∧
      e.peptide_id = pep.id) :
    (get_xiview_peptides db ids).countP (fun o =>
        decide (o.id = pep.id) && decide (o.u_id = toString pep.upload_id) &&
        decide (o.seq = pep.base_sequence)) = 1 ∧
    ∀ o ∈ get_xiview_peptides db ids,
      o.id = pep.id → o.u_id = toString pep.upload_id →
      o.seq = pep.base_sequence →
      ∃ evs : List PeptideEvidence,
        (∀ e ∈ evs, e ∈ db.peptideevidences ∧ e.upload_id = pep.upload_id ∧
          e.peptide_id = pep.id) ∧
        (∀ e ∈ db.peptideevidences, e.upload_id = pep.upload_id →
          e.peptide_id = pep.id → e ∈ evs) ∧
        o.prt = evs.map (fun e => e.dbsequence_id) ∧
        o.pos = evs.map (fun e => e.pep_start) ∧
        o.dec = evs.map (fun e => e.is_decoy) ∧
        o.prt.length = o.pos.length ∧ o.pos.length = o.dec.length := by
  obtain ⟨e0, he0m, he0u, he0i⟩ := hev
  have hrow0 : (pep, e0) ∈ pepJoinRows db ids :=
    pep_evidence_join hpep hm1 he0m he0u he0i
  have hk0mem : pepKey pep ∈ xiviewPepKeys db ids := by
    unfold xiviewPepKeys
    rw [List.mem_dedup, List.mem_map]
    exact ⟨(pep, e0), hrow0, rfl⟩
  have hkey_eq :
      ∀ k : Nat × Nat × String, k.1 = pep.id → k.2.1 = pep.upload_id →
        k.2.2 = pep.base_sequence → k = pepKey pep := by
    rintro ⟨ka, kb, kc⟩ e1 e2 e3
    simp only at e1 e2 e3
    subst e1; subst e2; subst e3
    rfl
  have hsome : (pepRowOf db ids (pepKey pep)).isSome := by
    have hin : (pep, e0) ∈ pepGroup db ids (pepKey pep) :=
      List.mem_filter.mpr ⟨hrow0, by simp⟩
    unfold pepRowOf
    cases hh : (pepGroup db ids (pepKey pep)).head? with
    | none =>
      rw [List.head?_eq_none_iff] at hh
      rw [hh] at hin
      simp at hin
    | some r0 => rfl
  constructor
  · have hcount := countP_filterMap_eq (pepRowOf db ids)
      (fun o => decide (o.id = pep.id) &&
        decide (o.u_id = toString pep.upload_id) &&
        decide (o.seq = pep.base_sequence))
      (fun k => decide (k = pepKey pep))
      (xiviewPepKeys db ids)
      (by
        intro k _ o hko
        obtain ⟨hid, huid, hseq, _, _, _⟩ := pepRowOf_fields hko
        rw [Bool.eq_iff_iff]
        simp only [Bool.and_eq_true, decide_eq_true_eq]
        constructor
        · rintro ⟨⟨ha, hb⟩, hc⟩
          apply hkey_eq
          · rw [← hid]; exact ha
          · exact natToString_inj (by rw [← huid]; exact hb)
          · rw [← hseq]; exact hc
        · rintro rfl
          exact ⟨⟨hid, huid⟩, hseq⟩)
      (by
        intro k _ hq
        have hk : k = pepKey pep := by simpa using hq
        subst hk
        exact hsome)
    unfold get_xiview_peptides
    rw [hcount]
    exact countP_eq_one_of_nodup_mem
      (by unfold xiviewPepKeys; exact List.nodup_dedup _) hk0mem
  · intro o ho hid0 huid0 hseq0
    obtain ⟨k, hkmem, hfk⟩ := List.mem_filterMap.mp ho
    obtain ⟨hid, huid, hseq, hprt, hpos, hdec⟩ := pepRowOf_fields hfk
    have hkk : k = pepKey pep := by
      apply hkey_eq
      · rw [← hid]; exact hid0
      · exact natToString_inj (by rw [← huid]; exact huid0)
      · rw [← hseq]; exact hseq0
    subst hkk
    refine ⟨(pepGroup db ids (pepKey pep)).map (fun r => r.2),
      ?_, ?_, ?_, ?_, ?_, ?_, ?_⟩
    · intro e he
      obtain ⟨r, hr, rfl⟩ := List.mem_map.mp he
      obtain ⟨hrj, hrk⟩ := mem_pepGroup hr
      have hm := mem_pepJoinRows.mp hrj
      have c1 : r.1.id = pep.id := congrArg (fun x => x.1) hrk
      have c2 : r.1.upload_id = pep.upload_id := congrArg (fun x => x.2.1) hrk
      refine ⟨hm.2.2.1, ?_, ?_⟩
      · rw [← hm.2.2.2.2.1]; exact c2
      · rw [← hm.2.2.2.2.2]; exact c1
    · intro e hem heu hei
      apply List.mem_map.mpr
      exact ⟨(pep, e),
        List.mem_filter.mpr ⟨pep_evidence_join hpep hm1 hem heu hei, by simp⟩,
        rfl⟩
    · rw [List.map_map]; exact hprt
    · rw [List.map_map]; exact hpos
    · rw [List.map_map]; exact hdec
    · rw [hprt, hpos]; simp
    · rw [hpos, hdec]; simp

theorem peptides_query_dedup_parallel_witness :
    (exPep1 ∈ exDB.modifiedpeptides ∧
      (∃ m ∈ exDB.matchRows, m.upload_id ∈ [7] ∧ m.pass_threshold = true ∧
        m.upload_id = exPep1.upload_id ∧ m.pep1_id = exPep1.id) ∧
      (∃ m ∈ exDB.matchRows, m.upload_id ∈ [7] ∧ m.pass_threshold = true ∧
        m.upload_id = exPep1.upload_id ∧ m.pep2_id = exPep1.id) ∧
      (∃ e ∈ exDB.peptideevidences, e.upload_id = exPep1.upload_id ∧
        e.peptide_id = exPep1.id)) ∧
    ((get_xiview_peptides exDB [7]).countP (fun o =>
        decide (o.id = exPep1.id) &&
        decide (o.u_id = toString exPep1.upload_id) &&
        decide (o.seq = exPep1.base_sequence)) = 1 ∧
    ∀ o ∈ get_xiview_peptides exDB [7],
      o.id = exPep1.id → o.u_id = toString exPep1.upload_id →
      o.seq = exPep1.base_sequence →
      ∃ evs : List PeptideEvidence,
        (∀ e ∈ evs, e ∈ exDB.peptideevidences ∧
          e.upload_id = exPep1.upload_id ∧ e.peptide_id = exPep1.id) ∧
        (∀ e ∈ exDB.peptideevidences, e.upload_id = exPep1.upload_id →
          e.peptide_id = exPep1.id → e ∈ evs) ∧
        o.prt = evs.map (fun e => e.dbsequence_id) ∧
        o.pos = evs.map (fun e => e.pep_start) ∧
        o.dec = evs.map (fun e => e.is_decoy) ∧
        o.prt.length = o.pos.length ∧ o.pos.length = o.dec.length) :=
  ⟨⟨by decide, by decide, by decide, by decide⟩,
    peptides_query_dedup_parallel exDB [7] exPep1 (by decide) (by decide)
      (by decide) (by decide)⟩
